import Mathlib

/-!
Verification of the statement-level parser of RSLint
(`src/rslint_parser/src/syntax/stmt.rs`) against its natural-language
specification.

The Rust source is shallowly embedded: the parser is a record holding the
token stream, the cursor position, the contextual `ParserState`, and the list
of emitted diagnostics; every statement rule becomes an executable Lean
function on that record.  The tree-event sink is modelled by its observables:
a completed marker carries the node kind and source range (plus, for
expression statements, a summary of the inner expression node, standing in
for the `parse_marker` re-inspection of the event buffer).  The sub-parsers
that the spec declares out of scope (expression, pattern, declaration,
module sub-parsers) are modelled from the spec at their interface boundary;
each such definition says so in its doc comment.  The statement family is
mutually recursive through `stmt`, so those functions take a fuel argument
and return `none` exactly when the fuel runs out; `none` for every fuel is
how non-termination of the source loop is expressed.
-/

namespace Rslint

/-- Node and token kinds, from `SyntaxKind` as used by `stmt.rs`. -/
inductive SyntaxKind where
  | SEMICOLON | COLON | COMMA | EQ
  | L_PAREN | R_PAREN | L_CURLY | R_CURLY | L_BRACK
  | IDENT | STRING | NUMBER | EOF
  | VAR_KW | CONST_KW | FUNCTION_KW | CLASS_KW
  | IF_KW | ELSE_KW | FOR_KW | DO_KW | WHILE_KW
  | CONTINUE_KW | BREAK_KW | RETURN_KW | WITH_KW
  | SWITCH_KW | THROW_KW | TRY_KW | DEBUGGER_KW
  | CASE_KW | DEFAULT_KW | CATCH_KW | FINALLY_KW
  | IN_KW | AWAIT_KW | YIELD_KW | IMPORT_KW | EXPORT_KW
  | ERROR | NAME | LITERAL | SINGLE_PATTERN
  | EMPTY_STMT | BLOCK_STMT | EXPR_STMT | LABELLED_STMT
  | IF_STMT | WITH_STMT | WHILE_STMT | DO_WHILE_STMT
  | FOR_STMT | FOR_IN_STMT | FOR_OF_STMT | SWITCH_STMT
  | TRY_STMT | CATCH_CLAUSE | FINALIZER
  | THROW_STMT | RETURN_STMT | BREAK_STMT | CONTINUE_STMT
  | DEBUGGER_STMT | VAR_DECL | DECLARATOR | CONDITION
  | FN_DECL | CLASS_DECL | IMPORT_DECL | EXPORT_DECL
  deriving DecidableEq, Repr

open SyntaxKind

/-- A source range `[start, stop)`, the embedding of `Range<usize>`. -/
structure Rng where
  start : Nat
  stop : Nat
  deriving DecidableEq, Repr

/-- A token: kind, source range, the "preceded by linebreak" flag derived
from the trivia, and its source text (`cur_src`). -/
structure Token where
  kind : SyntaxKind
  range : Rng
  lb : Bool
  src : String
  deriving DecidableEq, Repr

/-- A fixed set of token kinds with O(1) membership, the `TokenSet` type. -/
def TokenSet := List SyntaxKind

/-- Membership test of `TokenSet`. -/
def TokenSet.contains (ts : TokenSet) (k : SyntaxKind) : Bool :=
  ts.any (fun x => x = k)

/-- A span of a diagnostic: a range with a per-span label. -/
structure Span where
  range : Rng
  label : String
  deriving DecidableEq, Repr

/-- A diagnostic: message, primary span, secondary spans, optional help.
Severity is omitted: every diagnostic built in `stmt.rs` is an error. -/
structure Diagnostic where
  message : String
  primary : Option Span
  secondary : List Span
  help : Option String
  deriving DecidableEq, Repr

/-- `err_builder`: a diagnostic with only a message. -/
def err_builder (msg : String) : Diagnostic :=
  { message := msg, primary := none, secondary := [], help := none }

/-- Set the primary span of a diagnostic. -/
def Diagnostic.primary_span (d : Diagnostic) (r : Rng) (l : String) : Diagnostic :=
  { d with primary := some ⟨r, l⟩ }

/-- Append a secondary span to a diagnostic. -/
def Diagnostic.secondary_span (d : Diagnostic) (r : Rng) (l : String) : Diagnostic :=
  { d with secondary := d.secondary ++ [⟨r, l⟩] }

/-- Attach a help note to a diagnostic. -/
def Diagnostic.help_note (d : Diagnostic) (s : String) : Diagnostic :=
  { d with help := some s }

/-- The contextual parser state (`ParserState`): module/strict flags, the
function/async/iteration context, and the label map (label text to the range
where it was declared). -/
structure ParserState where
  is_module : Bool
  strict : Bool
  in_function : Bool
  in_async : Bool
  break_allowed : Bool
  continue_allowed : Bool
  labels : List (String × Rng)
  deriving DecidableEq, Repr

/-- The state a fresh script parser starts from: nothing set, no labels. -/
def init_state : ParserState :=
  { is_module := false, strict := false, in_function := false, in_async := false,
    break_allowed := false, continue_allowed := false, labels := [] }

/-- `HashMap::insert` on the label map: replace any prior binding. -/
def labels_insert (n : String) (r : Rng) (ls : List (String × Rng)) :
    List (String × Rng) :=
  (n, r) :: ls.filter (fun x => x.1 != n)

/-- Modelled from the spec: `ParserState::iteration_stmt` lives outside
`src/`; its call sites in `do_stmt` and `for_stmt` pass the literal booleans
`true` before the body and `false` after it, so it is the setter that assigns
the given value to both iteration flags. -/
def ParserState.iteration_stmt (s : ParserState) (set : Bool) : ParserState :=
  { s with break_allowed := set, continue_allowed := set }

/-- Modelled from the spec: `ParserState::strict` lives outside `src/`;
per §4.8 it transitions the current state to strict mode (the global
program-strict mark taken when `top_level` holds is outside the state record
modelled here). -/
def ParserState.strict_mode (s : ParserState) (_range : Rng) (_top_level : Bool) :
    ParserState :=
  { s with strict := true }

/-- Summary of an expression node as the tree would materialize it: its node
kind, whether it is a string literal, and its (unquoted) text.  This stands
in for `parse_marker` re-reading the event buffer. -/
structure LitInfo where
  expr_kind : SyntaxKind
  is_string : Bool
  text : String
  deriving DecidableEq, Repr

/-- A completed marker: the node kind, its source range, and (for expression
statements) the summary of the inner expression node. -/
structure CompletedMarker where
  kind : SyntaxKind
  range : Rng
  info : Option LitInfo
  deriving DecidableEq, Repr

/-- An in-progress marker: the source offset at which the node begins. -/
structure Marker where
  start_off : Nat
  deriving DecidableEq, Repr

/-- The parser: the token stream with a cursor, the source length (the EOF
position), the contextual state, the emitted diagnostics in order, the end
offset of the last consumed token, and a ghost counter of calls into the
expression sub-parser (it instruments the embedding and affects nothing). -/
structure Parser where
  tokens : List Token
  pos : Nat
  src_len : Nat
  state : ParserState
  errors : List Diagnostic
  last_end : Nat
  expr_calls : Nat
  deriving DecidableEq, Repr

/-- The token at offset `k` from the cursor; past the stream it is the
synthetic EOF token at the source end. -/
def Parser.nth_tok (p : Parser) (k : Nat) : Token :=
  p.tokens.getD (p.pos + k) ⟨EOF, ⟨p.src_len, p.src_len⟩, false, ""⟩

/-- `cur_tok`: the current token. -/
def Parser.cur_tok (p : Parser) : Token :=
  p.nth_tok 0

/-- `cur`: the current token kind. -/
def Parser.cur (p : Parser) : SyntaxKind :=
  p.cur_tok.kind

/-- `nth`: the token kind at offset `k`. -/
def Parser.nth (p : Parser) (k : Nat) : SyntaxKind :=
  (p.nth_tok k).kind

/-- `cur_src`: the source text of the current token. -/
def Parser.cur_src (p : Parser) : String :=
  p.cur_tok.src

/-- `has_linebreak_before_n`: linebreak in the trivia before token `k`. -/
def Parser.has_linebreak_before_n (p : Parser) (k : Nat) : Bool :=
  (p.nth_tok k).lb

/-- `at`: is the current token of the given kind (`at` is reserved in Lean,
hence the underscore). -/
def Parser.at_ (p : Parser) (k : SyntaxKind) : Bool :=
  p.cur = k

/-- `at_ts`: is the current token in the given set. -/
def Parser.at_ts (p : Parser) (ts : TokenSet) : Bool :=
  ts.contains p.cur

/-- `nth_at`: is the token at offset `k` of the given kind. -/
def Parser.nth_at (p : Parser) (k : Nat) (kind : SyntaxKind) : Bool :=
  p.nth k = kind

/-- `bump_any`: consume the current token.  Never called at EOF by the
source; at EOF it is a no-op here. -/
def Parser.bump_any (p : Parser) : Parser :=
  if p.cur = EOF then p
  else { p with pos := p.pos + 1, last_end := p.cur_tok.range.stop }

/-- `eat`: consume the current token when it has the given kind. -/
def Parser.eat (p : Parser) (k : SyntaxKind) : Parser × Bool :=
  if p.cur = k then (p.bump_any, true) else (p, false)

/-- `error`: deliver a diagnostic to the sink. -/
def Parser.error (p : Parser) (d : Diagnostic) : Parser :=
  { p with errors := p.errors ++ [d] }

/-- Modelled from the spec: the message of the `expect` diagnostic; `expect`
lives outside `src/` ("consume-or-diagnose", §6). -/
def unexpected_token_msg : String :=
  "Unexpected token"

/-- `expect`: consume the current token if it has the given kind, otherwise
emit a diagnostic at the current position and consume nothing. -/
def Parser.expect (p : Parser) (k : SyntaxKind) : Parser × Bool :=
  if p.cur = k then (p.bump_any, true)
  else (p.error ((err_builder unexpected_token_msg).primary_span p.cur_tok.range ""), false)

/-- Skip tokens until the current kind is in the set or EOF; fuelled by the
number of remaining tokens. -/
def skip_until : Nat → TokenSet → Parser → Parser
  | 0, _, p => p
  | k + 1, ts, p =>
    if p.cur = EOF || ts.contains p.cur then p
    else skip_until k ts p.bump_any

/-- Modelled from the spec: `err_recover` lives outside `src/`; per §4.2 it
emits the diagnostic and consumes tokens until a member of the recovery set
or EOF is the current kind. -/
def Parser.err_recover (p : Parser) (d : Diagnostic) (ts : TokenSet) : Parser :=
  skip_until (p.tokens.length - p.pos + 1) ts (p.error d)

/-- `start`: reserve a marker at the current position. -/
def Parser.start (p : Parser) : Marker :=
  ⟨p.cur_tok.range.start⟩

/-- `complete`: close a marker with a node kind; the node spans from the
marker's start offset to the end of the last consumed token. -/
def Marker.complete (m : Marker) (p : Parser) (kind : SyntaxKind) : CompletedMarker :=
  ⟨kind, ⟨m.start_off, p.last_end⟩, none⟩

/-- `precede`: a new marker wrapping an already-completed node. -/
def CompletedMarker.precede (c : CompletedMarker) : Marker :=
  ⟨c.range.start⟩

/-- `change_kind`: reclassify an already-completed node. -/
def CompletedMarker.change_kind (c : CompletedMarker) (kind : SyntaxKind) :
    CompletedMarker :=
  { c with kind := kind }

/-- The unquoted text of a string literal token (`inner_string_text`). -/
def inner_string (s : String) : String :=
  (s.drop 1).dropRight 1

/-- Modelled from the spec: `STARTS_EXPR` is exported by the expression
sub-parser, which is out of scope (§1); it is the first set of expressions.
Identifiers, literals and parenthesized expressions suffice for the
statement layer modelled here. -/
def STARTS_EXPR : TokenSet :=
  [IDENT, STRING, NUMBER, L_PAREN, L_BRACK]

/-- Modelled from the spec: the expression sub-parser `expr`, out of scope
(§1), "returns an optional CompletedMarker" (§6).  At its boundary it is
modelled as parsing a single identifier into a `Name` node or a single
literal token into a `Literal` node, and returning `none` (consuming
nothing) on anything else.  It also ticks the ghost call counter. -/
def expr (p : Parser) : Parser × Option CompletedMarker :=
  match p.cur with
  | IDENT =>
    let t := p.cur_tok
    ({ p.bump_any with expr_calls := p.expr_calls + 1 },
      some ⟨NAME, t.range, some ⟨NAME, false, t.src⟩⟩)
  | STRING =>
    let t := p.cur_tok
    ({ p.bump_any with expr_calls := p.expr_calls + 1 },
      some ⟨LITERAL, t.range, some ⟨LITERAL, true, inner_string t.src⟩⟩)
  | NUMBER =>
    let t := p.cur_tok
    ({ p.bump_any with expr_calls := p.expr_calls + 1 },
      some ⟨LITERAL, t.range, some ⟨LITERAL, false, t.src⟩⟩)
  | _ => ({ p with expr_calls := p.expr_calls + 1 }, none)

/-- Modelled from the spec: the assignment-expression sub-parser
`assign_expr`, out of scope (§1); same boundary model as `expr`. -/
def assign_expr (p : Parser) : Parser × Option CompletedMarker :=
  expr p

/-- Modelled from the spec: the primary-expression sub-parser
`primary_expr`, out of scope (§1); boundary model: a single identifier
becomes a `Name` node. -/
def primary_expr (p : Parser) : Parser × Option CompletedMarker :=
  match p.cur with
  | IDENT =>
    let t := p.cur_tok
    (p.bump_any, some ⟨NAME, t.range, some ⟨NAME, false, t.src⟩⟩)
  | _ => (p, none)

/-- Modelled from the spec: the pattern sub-parser `pattern`, out of scope
(§1); boundary model: a single identifier becomes a `SinglePattern`. -/
def pattern (p : Parser) : Parser × Option CompletedMarker :=
  match p.cur with
  | IDENT =>
    let t := p.cur_tok
    (p.bump_any, some ⟨SINGLE_PATTERN, t.range, none⟩)
  | _ => (p, none)

/-- Modelled from the spec: `function_decl`, out of scope (§1); boundary
model: consume the `function` keyword and complete the given marker. -/
def function_decl (p : Parser) (m : Marker) : Parser × CompletedMarker :=
  let p1 := p.bump_any
  (p1, m.complete p1 FN_DECL)

/-- Modelled from the spec: `class_decl`, out of scope (§1); boundary model:
consume the `class` keyword into a `ClassDecl` node. -/
def class_decl (p : Parser) : Parser × CompletedMarker :=
  let m := p.start
  let p1 := p.bump_any
  (p1, m.complete p1 CLASS_DECL)

/-- Modelled from the spec: `import_decl` of the module sub-parser, out of
scope (§1); boundary model: consume the keyword into an `ImportDecl`. -/
def import_decl (p : Parser) : Parser × CompletedMarker :=
  let m := p.start
  let p1 := p.bump_any
  (p1, m.complete p1 IMPORT_DECL)

/-- Modelled from the spec: `export_decl` of the module sub-parser, out of
scope (§1); boundary model: consume the keyword into an `ExportDecl`. -/
def export_decl (p : Parser) : Parser × CompletedMarker :=
  let m := p.start
  let p1 := p.bump_any
  (p1, m.complete p1 EXPORT_DECL)

/-- Modelled from the spec: the message used by `check_label_use`. -/
def undefined_label_msg : String :=
  "Use of an undefined label"

/-- Modelled from the spec: `check_label_use` from the utility layer, out of
`src/`; per §4.3 it verifies that the parsed label is in scope and emits an
error if not. -/
def check_label_use (p : Parser) (label : CompletedMarker) : Parser :=
  match label.info with
  | some i =>
    if (p.state.labels.lookup i.text).isSome then p
    else p.error ((err_builder undefined_label_msg).primary_span label.range "")
  | none => p

/-- Modelled from the spec: `check_lhs` from the utility layer, out of
`src/`.  No claim depends on its diagnostics, so it is modelled as
diagnostic-free. -/
def check_lhs (p : Parser) (_e : CompletedMarker) : Parser :=
  p

/-- Modelled from the spec: `check_for_stmt_declarators` from the utility
layer, out of `src/`.  No claim depends on its diagnostics, so it is
modelled as diagnostic-free. -/
def check_for_stmt_declarators (p : Parser) (_d : CompletedMarker) : Parser :=
  p

/-- Modelled from the spec: `check_var_decl_bound_names` from the utility
layer, out of `src/`.  No claim depends on its diagnostics, so it is
modelled as diagnostic-free. -/
def check_var_decl_bound_names (p : Parser) (_d : CompletedMarker) : Parser :=
  p

/-- `STMT_RECOVERY_SET` from `stmt.rs` (the source lists `FUNCTION_KW`
twice; the duplicate is kept). -/
def STMT_RECOVERY_SET : TokenSet :=
  [L_CURLY, VAR_KW, FUNCTION_KW, IF_KW, FOR_KW, DO_KW, WHILE_KW, CONTINUE_KW,
   BREAK_KW, RETURN_KW, WITH_KW, SWITCH_KW, THROW_KW, TRY_KW, DEBUGGER_KW,
   FUNCTION_KW]

/-- `FOLLOWS_LET` from `stmt.rs`. -/
def FOLLOWS_LET : TokenSet :=
  [L_CURLY, L_BRACK, IDENT, YIELD_KW, AWAIT_KW]

/-- Message of the ASI failure diagnostic in `semi`. -/
def semi_msg : String :=
  "Expected a semicolon or an implicit semicolon after a statement, but found none"

/-- `semi` from `stmt.rs`: consume an explicit semicolon, or silently accept
EOF or a preceding linebreak, or emit the ASI failure diagnostic.  The
source's short-circuit `p.eat(T![;]) || p.at(EOF)` (whose first operand
consumes the semicolon) is lowered into the equivalent `if` chain. -/
def semi (p : Parser) (err_range : Rng) : Parser :=
  if p.at_ SEMICOLON then p.bump_any
  else if p.at_ EOF then p
  else if !(p.has_linebreak_before_n 0) then
    p.error
      (((err_builder semi_msg).primary_span p.cur_tok.range
          "An explicit or implicit semicolon is expected here...").secondary_span
        err_range "...Which is required to end this statement")
  else p

/-- Message of the duplicate-label diagnostic in `stmt`. -/
def dup_label_msg : String :=
  "Duplicate statement labels are not allowed"

/-- Message of the statement-dispatch failure diagnostic in `stmt`. -/
def expected_stmt_msg : String :=
  "Expected a statement, but found none"

/-- Message of the linebreak diagnostic in `throw_stmt`. -/
def throw_lb_msg : String :=
  "Linebreaks between a throw statement and the error to be thrown are not allowed"

/-- Message of the context diagnostic in `break_stmt`. -/
def invalid_break_msg : String :=
  "Invalid break not inside of a switch, loop, or labelled statement"

/-- Message of the context diagnostic in `continue_stmt`. -/
def invalid_continue_msg : String :=
  "Invalid continue not inside of a loop"

/-- Message of the context diagnostic in `return_stmt`. -/
def illegal_return_msg : String :=
  "Illegal return statement outside of a function"

/-- Message of the variable-declaration dispatch diagnostic in `var_decl`. -/
def expected_var_msg : String :=
  "Expected `var`, `let`, or `const` for a variable declaration, but found none"

/-- Message of the destructuring-initializer diagnostic in `declarator`. -/
def pattern_init_msg : String :=
  "Object and Array patterns require initializers"

/-- Message of the const-initializer diagnostic in `declarator`. -/
def const_init_msg : String :=
  "Const var declarations must have an initialized value"

/-- Message of the clause-dispatch diagnostic in `switch_clause`. -/
def case_clause_msg : String :=
  "Expected a `case` or `default` clause in a switch statement, but found none"

/-- Message of the duplicate-default diagnostic in `switch_stmt`. -/
def mult_default_msg : String :=
  "Multiple default clauses inside of a switch statement are not allowed"

/-- Message of the missing-catch-binding diagnostic in `catch_clause`. -/
def catch_ident_msg : String :=
  "Expected an identifier for the error in a catch clause, but found none"

/-- Message of the script-mode import diagnostic in `block_items`. -/
def illegal_import_msg : String :=
  "Illegal use of an import declaration outside of a module"

/-- Message of the script-mode export diagnostic in `block_items`. -/
def illegal_export_msg : String :=
  "Illegal use of an export declaration outside of a module"

/-- Help note of the script-mode import/export diagnostics. -/
def script_mode_help : String :=
  "Note: the parser is configured for scripts, not modules"

/-- `debugger_stmt` from `stmt.rs`. -/
def debugger_stmt (p : Parser) : Parser × CompletedMarker :=
  let m := p.start
  let range := p.cur_tok.range
  let (p1, _) := p.expect DEBUGGER_KW
  let p2 := semi p1 range
  (p2, m.complete p2 DEBUGGER_STMT)

/-- `throw_stmt` from `stmt.rs`. -/
def throw_stmt (p : Parser) : Parser × CompletedMarker :=
  let m := p.start
  let start := p.cur_tok.range.start
  let (p1, _) := p.expect THROW_KW
  let p2 :=
    if p1.has_linebreak_before_n 0 then
      let err := (err_builder throw_lb_msg).primary_span p1.cur_tok.range
        "A linebreak is not allowed here"
      let err :=
        if p1.at_ts STARTS_EXPR then
          err.secondary_span p1.cur_tok.range "Help: did you mean to throw this?"
        else err
      p1.error err
    else (expr p1).1
  let p3 := semi p2 ⟨start, p2.cur_tok.range.stop⟩
  (p3, m.complete p3 THROW_STMT)

/-- `break_stmt` from `stmt.rs`. -/
def break_stmt (p : Parser) : Parser × CompletedMarker :=
  let m := p.start
  let start := p.cur_tok.range.start
  let (p1, _) := p.expect BREAK_KW
  let p2 :=
    if !(p1.has_linebreak_before_n 0) && p1.at_ IDENT then
      let (q, label) := primary_expr p1
      match label with
      | some l => check_label_use q l
      | none => q
    else p1
  let p3 := semi p2 ⟨start, p2.cur_tok.range.stop⟩
  let p4 :=
    if !p3.state.break_allowed && p3.state.labels.isEmpty then
      p3.error ((err_builder invalid_break_msg).primary_span
        ⟨start, p3.cur_tok.range.stop⟩ "This break statement is invalid in this context")
    else p3
  (p4, m.complete p4 BREAK_STMT)

/-- `continue_stmt` from `stmt.rs`. -/
def continue_stmt (p : Parser) : Parser × CompletedMarker :=
  let m := p.start
  let start := p.cur_tok.range.start
  let (p1, _) := p.expect CONTINUE_KW
  let p2 :=
    if !(p1.has_linebreak_before_n 0) && p1.at_ IDENT then
      let (q, label) := primary_expr p1
      match label with
      | some l => check_label_use q l
      | none => q
    else p1
  let p3 := semi p2 ⟨start, p2.cur_tok.range.stop⟩
  let p4 :=
    if !p3.state.continue_allowed then
      p3.error ((err_builder invalid_continue_msg).primary_span
        ⟨start, p3.cur_tok.range.stop⟩ "This continue statement is invalid in this context")
    else p3
  (p4, m.complete p4 CONTINUE_STMT)

/-- `return_stmt` from `stmt.rs`. -/
def return_stmt (p : Parser) : Parser × CompletedMarker :=
  let m := p.start
  let start := p.cur_tok.range.start
  let (p1, _) := p.expect RETURN_KW
  let p2 :=
    if !(p1.has_linebreak_before_n 0) && p1.at_ts STARTS_EXPR then (expr p1).1
    else p1
  let p3 := semi p2 ⟨start, p2.cur_tok.range.stop⟩
  let complete := m.complete p3 RETURN_STMT
  let p4 :=
    if !p3.state.in_function then
      p3.error ((err_builder illegal_return_msg).primary_span complete.range "")
    else p3
  (p4, complete)

/-- `empty_stmt` from `stmt.rs`. -/
def empty_stmt (p : Parser) : Parser × CompletedMarker :=
  let m := p.start
  let (p1, _) := p.expect SEMICOLON
  (p1, m.complete p1 EMPTY_STMT)

/-- `condition` from `stmt.rs`. -/
def condition (p : Parser) : Parser :=
  let m := p.start
  let (p1, _) := p.expect L_PAREN
  let (p2, _) := expr p1
  let (p3, _) := p2.expect R_PAREN
  let _ := m.complete p3 CONDITION
  p3

/-- `declarator` from `stmt.rs`. -/
def declarator (p : Parser) (is_const : Option Rng) (for_stmt : Bool) :
    Parser × CompletedMarker :=
  let m := p.start
  let (p1, pat) := pattern p
  let (p2, ate_eq) := p1.eat EQ
  let p3 :=
    if ate_eq then (assign_expr p2).1
    else
      match pat with
      | some marker =>
        if marker.kind != SINGLE_PATTERN then
          p2.error ((err_builder pattern_init_msg).primary_span marker.range
            "this pattern is declared, but it is not given an initialized value")
        else if is_const.isSome && !for_stmt then
          p2.error ((err_builder const_init_msg).primary_span marker.range
            "this variable needs to be initialized")
        else p2
      | none => p2
  (p3, m.complete p3 DECLARATOR)

/-- `for_each_head` from `stmt.rs`. -/
def for_each_head (p : Parser) (is_in : Bool) : Parser × SyntaxKind :=
  if is_in then ((expr p).1, FOR_IN_STMT)
  else ((assign_expr p).1, FOR_OF_STMT)

/-- `normal_for_head` from `stmt.rs`. -/
def normal_for_head (p : Parser) : Parser :=
  let (p1, ate) := p.eat SEMICOLON
  let p2 :=
    if ate then p1
    else
      let (q, _) := expr p1
      (q.expect SEMICOLON).1
  if !(p2.at_ R_PAREN) then (expr p2).1 else p2

mutual

/-- `stmt` from `stmt.rs`: the statement dispatcher.  The fuel argument
bounds the recursion depth; `none` is fuel exhaustion, and the inner
`Option CompletedMarker` is the source's return value. -/
def stmt : Nat → Parser → Option (Parser × Option CompletedMarker)
  | 0, _ => none
  | fuel + 1, p =>
    if p.at_ SEMICOLON then
      let (p1, c) := empty_stmt p
      some (p1, some c)
    else if p.at_ L_CURLY then
      do
        let (p1, c) ← block_stmt fuel p false
        some (p1, some c)
    else if p.at_ IF_KW then
      do
        let (p1, c) ← if_stmt fuel p
        some (p1, some c)
    else if p.at_ WITH_KW then
      do
        let (p1, c) ← with_stmt fuel p
        some (p1, some c)
    else if p.at_ WHILE_KW then
      do
        let (p1, c) ← while_stmt fuel p
        some (p1, some c)
    else if p.at_ VAR_KW || p.at_ CONST_KW then
      do
        let (p1, c) ← var_decl fuel p false
        some (p1, some c)
    else if p.at_ FOR_KW then
      do
        let (p1, c) ← for_stmt fuel p
        some (p1, some c)
    else if p.at_ DO_KW then
      do
        let (p1, c) ← do_stmt fuel p
        some (p1, some c)
    else if p.at_ SWITCH_KW then
      do
        let (p1, c) ← switch_stmt fuel p
        some (p1, some c)
    else if p.at_ TRY_KW then
      do
        let (p1, c) ← try_stmt fuel p
        some (p1, some c)
    else if p.at_ RETURN_KW then
      let (p1, c) := return_stmt p
      some (p1, some c)
    else if p.at_ BREAK_KW then
      let (p1, c) := break_stmt p
      some (p1, some c)
    else if p.at_ CONTINUE_KW then
      let (p1, c) := continue_stmt p
      some (p1, some c)
    else if p.at_ THROW_KW then
      let (p1, c) := throw_stmt p
      some (p1, some c)
    else if p.at_ DEBUGGER_KW then
      let (p1, c) := debugger_stmt p
      some (p1, some c)
    else if p.at_ FUNCTION_KW then
      let m := p.start
      let (p1, c) := function_decl p m
      some (p1, some c)
    else if p.at_ CLASS_KW then
      let (p1, c) := class_decl p
      some (p1, some c)
    else if p.at_ IDENT && p.cur_src = "async" && p.nth_at 1 FUNCTION_KW
        && !(p.has_linebreak_before_n 1) then
      let m := p.start
      let p1 := p.bump_any
      let saved := p1.state
      let p2 := { p1 with state := { p1.state with in_async := true } }
      let (p3, c) := function_decl p2 m
      some ({ p3 with state := saved }, some c)
    else if p.at_ IDENT && p.cur_src = "let" && FOLLOWS_LET.contains (p.nth 1) then
      do
        let (p1, c) ← var_decl fuel p false
        some (p1, some c)
    else if p.at_ts STARTS_EXPR then
      let start := p.cur_tok.range.start
      let (p1, e) := expr p
      match e with
      | none => some (p1, none)
      | some e =>
        if e.kind = NAME && p1.at_ COLON then
          let name := (e.info.map (fun i => i.text)).getD ""
          let p2 :=
            match p1.state.labels.lookup name with
            | some range =>
              p1.error
                (((err_builder dup_label_msg).secondary_span range
                    ("`" ++ name ++ "` is first used as a label here")).primary_span
                  p1.cur_tok.range
                  ("a second use of `" ++ name ++ "` here is not allowed"))
            | none =>
              { p1 with state :=
                  { p1.state with labels := labels_insert name e.range p1.state.labels } }
          let m := e.precede
          let p3 := p2.bump_any
          do
            let (p4, _) ← stmt fuel p3
            some (p4, some (m.complete p4 LABELLED_STMT))
        else
          let m := e.precede
          let p2 := semi p1 ⟨start, p1.cur_tok.range.stop⟩
          some (p2, some { m.complete p2 EXPR_STMT with info := e.info })
    else
      let err := (err_builder expected_stmt_msg).primary_span p.cur_tok.range
        "Expected a statement here"
      some (p.err_recover err STMT_RECOVERY_SET, none)

/-- `block_stmt` from `stmt.rs`. -/
def block_stmt : Nat → Parser → Bool → Option (Parser × CompletedMarker)
  | 0, _, _ => none
  | fuel + 1, p, function_body =>
    let m := p.start
    let (p1, _) := p.expect L_CURLY
    do
      let p2 ← block_items fuel p1 function_body false
      let (p3, _) := p2.expect R_CURLY
      some (p3, m.complete p3 BLOCK_STMT)

/-- `block_items` from `stmt.rs`: saves the state, runs the item loop, and
restores the saved state on exit. -/
def block_items : Nat → Parser → Bool → Bool → Option Parser
  | 0, _, _, _ => none
  | fuel + 1, p, directives, top_level =>
    let old := p.state
    do
      let p1 ← block_items_loop fuel p directives top_level directives
      some { p1 with state := old }

/-- The item loop of `block_items`: the `while` loop with the
`could_be_directive` accumulator and the directive-prologue logic. -/
def block_items_loop : Nat → Parser → Bool → Bool → Bool → Option Parser
  | 0, _, _, _, _ => none
  | fuel + 1, p, directives, top_level, could_be_directive =>
    if !(p.at_ EOF) && !(p.at_ R_CURLY) then
      do
        let (p1, complete) ←
          (match p.cur with
            | IMPORT_KW =>
              let (q, m) := import_decl p
              if !q.state.is_module then
                let err := ((err_builder illegal_import_msg).primary_span m.range
                  "not allowed inside scripts").help_note script_mode_help
                some (q.error err, some (m.change_kind ERROR))
              else some (q, some m)
            | EXPORT_KW =>
              let (q, m) := export_decl p
              if !q.state.is_module then
                let err := ((err_builder illegal_export_msg).primary_span m.range
                  "not allowed inside scripts").help_note script_mode_help
                some (q.error err, some (m.change_kind ERROR))
              else some (q, some m)
            | _ => stmt fuel p)
        let (p2, could2) :=
          match complete with
          | some c =>
            if could_be_directive then
              match c.kind with
              | EXPR_STMT =>
                match c.info with
                | some info =>
                  if info.expr_kind = LITERAL then
                    if info.is_string then
                      if info.text = "use strict" then
                        let range := c.range
                        ({ p1 with state := p1.state.strict_mode range top_level }, false)
                      else (p1, could_be_directive)
                    else (p1, false)
                  else (p1, could_be_directive)
                | none => (p1, could_be_directive)
              | _ => (p1, false)
            else (p1, could_be_directive)
          | none => (p1, could_be_directive)
        block_items_loop fuel p2 directives top_level could2
    else some p

/-- `if_stmt` from `stmt.rs`. -/
def if_stmt : Nat → Parser → Option (Parser × CompletedMarker)
  | 0, _ => none
  | fuel + 1, p =>
    let m := p.start
    let (p1, _) := p.expect IF_KW
    let p2 := condition p1
    do
      let (p3, _) ← stmt fuel p2
      let (p4, ate) := p3.eat ELSE_KW
      if ate then
        do
          let (p5, _) ← stmt fuel p4
          some (p5, m.complete p5 IF_STMT)
      else some (p4, m.complete p4 IF_STMT)

/-- `with_stmt` from `stmt.rs`. -/
def with_stmt : Nat → Parser → Option (Parser × CompletedMarker)
  | 0, _ => none
  | fuel + 1, p =>
    let m := p.start
    let (p1, _) := p.expect WITH_KW
    let p2 := condition p1
    do
      let (p3, _) ← stmt fuel p2
      some (p3, m.complete p3 WITH_STMT)

/-- `while_stmt` from `stmt.rs`: the body runs under a derived state with
both iteration flags set, restored when the state guard drops. -/
def while_stmt : Nat → Parser → Option (Parser × CompletedMarker)
  | 0, _ => none
  | fuel + 1, p =>
    let m := p.start
    let (p1, _) := p.expect WHILE_KW
    let p2 := condition p1
    let saved := p2.state
    let p3 := { p2 with state :=
      { p2.state with break_allowed := true, continue_allowed := true } }
    do
      let (p4, _) ← stmt fuel p3
      let p5 := { p4 with state := saved }
      some (p5, m.complete p5 WHILE_STMT)

/-- `var_decl` from `stmt.rs`. -/
def var_decl : Nat → Parser → Bool → Option (Parser × CompletedMarker)
  | 0, _, _ => none
  | fuel + 1, p, no_semi =>
    let m := p.start
    let start := p.cur_tok.range.start
    let (p1, is_const) :=
      match p.cur with
      | VAR_KW => (p.bump_any, none)
      | CONST_KW => (p.bump_any, some p.cur_tok.range)
      | IDENT =>
        if p.cur_src = "let" then (p.bump_any, none)
        else (p.error ((err_builder expected_var_msg).primary_span p.cur_tok.range ""),
          none)
      | _ =>
        (p.error ((err_builder expected_var_msg).primary_span p.cur_tok.range ""), none)
    let (p2, _) := declarator p1 is_const no_semi
    do
      let p3 ← var_decl_commas fuel p2 is_const no_semi
      let p4 := if !no_semi then semi p3 ⟨start, p3.cur_tok.range.start⟩ else p3
      let complete := m.complete p4 VAR_DECL
      let p5 := check_var_decl_bound_names p4 complete
      some (p5, complete)

/-- The comma loop of `var_decl`: while a comma is eaten, parse another
declarator. -/
def var_decl_commas : Nat → Parser → Option Rng → Bool → Option Parser
  | 0, _, _, _ => none
  | fuel + 1, p, is_const, no_semi =>
    let (p1, ate) := p.eat COMMA
    if ate then
      let (p2, _) := declarator p1 is_const no_semi
      var_decl_commas fuel p2 is_const no_semi
    else some p1

/-- `do_stmt` from `stmt.rs`: sets the iteration flags via
`iteration_stmt(true)` before the body and `iteration_stmt(false)` after. -/
def do_stmt : Nat → Parser → Option (Parser × CompletedMarker)
  | 0, _ => none
  | fuel + 1, p =>
    let m := p.start
    let (p1, _) := p.expect DO_KW
    let p2 := { p1 with state := p1.state.iteration_stmt true }
    do
      let (p3, _) ← stmt fuel p2
      let p4 := { p3 with state := p3.state.iteration_stmt false }
      let (p5, _) := p4.expect WHILE_KW
      let p6 := condition p5
      some (p6, m.complete p6 DO_WHILE_STMT)

/-- `for_head` from `stmt.rs`. -/
def for_head : Nat → Parser → Option (Parser × SyntaxKind)
  | 0, _ => none
  | fuel + 1, p =>
    if p.at_ CONST_KW || p.at_ VAR_KW
        || (p.cur_src = "let" && FOLLOWS_LET.contains (p.nth 1)) then
      do
        let (p1, decl) ← var_decl fuel p true
        if p1.at_ IN_KW || p1.cur_src = "of" then
          let is_in := p1.at_ IN_KW
          let p2 := p1.bump_any
          let p3 := check_for_stmt_declarators p2 decl
          some (for_each_head p3 is_in)
        else
          let (p2, _) := p1.expect SEMICOLON
          some (normal_for_head p2, FOR_STMT)
    else
      let (p1, ate) := p.eat SEMICOLON
      if ate then some (normal_for_head p1, FOR_STMT)
      else
        let (p2, complete) := expr p1
        if p2.at_ IN_KW || p2.cur_src = "of" then
          let is_in := p2.at_ IN_KW
          let p3 := p2.bump_any
          let p4 :=
            match complete with
            | some e => check_lhs p3 e
            | none => p3
          some (for_each_head p4 is_in)
        else
          let (p3, _) := p2.expect SEMICOLON
          some (normal_for_head p3, FOR_STMT)

/-- `for_stmt` from `stmt.rs`: like `do_stmt`, sets the iteration flags with
`iteration_stmt(true)` before the body and `iteration_stmt(false)` after. -/
def for_stmt : Nat → Parser → Option (Parser × CompletedMarker)
  | 0, _ => none
  | fuel + 1, p =>
    let m := p.start
    let (p1, _) := p.expect FOR_KW
    let (p2, _) := p1.eat AWAIT_KW
    let (p3, _) := p2.expect L_PAREN
    do
      let (p4, kind) ← for_head fuel p3
      let (p5, _) := p4.expect R_PAREN
      let p6 := { p5 with state := p5.state.iteration_stmt true }
      let (p7, _) ← stmt fuel p6
      let p8 := { p7 with state := p7.state.iteration_stmt false }
      some (p8, m.complete p8 kind)

/-- `switch_clause` from `stmt.rs`: returns the range of a `default` clause
header so `switch_stmt` can report duplicate defaults.  On a token that is
neither `case` nor `default` it only emits a diagnostic — no token is
consumed. -/
def switch_clause : Nat → Parser → Option (Parser × Option Rng)
  | 0, _ => none
  | fuel + 1, p =>
    let start := p.cur_tok.range.start
    match p.cur with
    | DEFAULT_KW =>
      let p1 := p.bump_any
      let (p2, _) := p1.expect COLON
      let stop := p2.cur_tok.range.stop
      do
        let p3 ← clause_stmts fuel p2
        some (p3, some ⟨start, stop⟩)
    | CASE_KW =>
      let p1 := p.bump_any
      let (p2, _) := expr p1
      let (p3, _) := p2.expect COLON
      do
        let p4 ← clause_stmts fuel p3
        some (p4, none)
    | _ =>
      let err := (err_builder case_clause_msg).primary_span p.cur_tok.range
        "Expected the start to a case or default clause here"
      some (p.error err, none)

/-- The statement list of a switch clause: parse statements until the
clause follow set `{ default, case, }, EOF }`. -/
def clause_stmts : Nat → Parser → Option Parser
  | 0, _ => none
  | fuel + 1, p =>
    if !(p.at_ts [DEFAULT_KW, CASE_KW, R_CURLY, EOF]) then
      do
        let (p1, _) ← stmt fuel p
        clause_stmts fuel p1
    else some p

/-- `switch_stmt` from `stmt.rs`. -/
def switch_stmt : Nat → Parser → Option (Parser × CompletedMarker)
  | 0, _ => none
  | fuel + 1, p =>
    let m := p.start
    let (p1, _) := p.expect SWITCH_KW
    let p2 := condition p1
    let (p3, _) := p2.expect L_CURLY
    do
      let p4 ← switch_loop fuel p3 none
      let (p5, _) := p4.expect R_CURLY
      some (p5, m.complete p5 SWITCH_STMT)

/-- The clause loop of `switch_stmt`: while the current token is neither `}`
nor EOF, run `switch_clause` under a derived state with `break_allowed`
(restored when the guard drops) and track the first `default` range. -/
def switch_loop : Nat → Parser → Option Rng → Option Parser
  | 0, _, _ => none
  | fuel + 1, p, first_default =>
    if !(p.at_ EOF) && !(p.at_ R_CURLY) then
      let saved := p.state
      let p1 := { p with state := { p.state with break_allowed := true } }
      do
        let (p2, r) ← switch_clause fuel p1
        let (p3, fd) :=
          match r with
          | some range =>
            match first_default with
            | some err_range =>
              let err := ((err_builder mult_default_msg).secondary_span err_range
                "the first default clause is defined here").primary_span range
                "a second clause here is not allowed"
              (p2.error err, first_default)
            | none => (p2, some range)
          | none => (p2, first_default)
        let p4 := { p3 with state := saved }
        switch_loop fuel p4 fd
    else some p

/-- `catch_clause` from `stmt.rs`. -/
def catch_clause : Nat → Parser → Option Parser
  | 0, _ => none
  | fuel + 1, p =>
    let m := p.start
    let (p1, _) := p.expect CATCH_KW
    let (p2, ate) := p1.eat L_PAREN
    let p3 :=
      if ate || !(p2.at_ L_CURLY) then
        let q :=
          if !(p2.at_ IDENT) then
            p2.error ((err_builder catch_ident_msg).primary_span p2.cur_tok.range
              "Expected an identifier here")
          else
            let name := p2.start
            let q1 := p2.bump_any
            let _ := name.complete q1 NAME
            q1
        (q.expect R_PAREN).1
      else p2
    do
      let (p4, _) ← block_stmt fuel p3 false
      let _ := m.complete p4 CATCH_CLAUSE
      some p4

/-- `try_stmt` from `stmt.rs`. -/
def try_stmt : Nat → Parser → Option (Parser × CompletedMarker)
  | 0, _ => none
  | fuel + 1, p =>
    let m := p.start
    let (p1, _) := p.expect TRY_KW
    do
      let (p2, _) ← block_stmt fuel p1 false
      let p3 ←
        (if p2.at_ CATCH_KW then catch_clause fuel p2 else some p2)
      if p3.at_ FINALLY_KW then
        let finalizer := p3.start
        let p4 := p3.bump_any
        do
          let (p5, _) ← block_stmt fuel p4 false
          let _ := finalizer.complete p5 FINALIZER
          some (p5, m.complete p5 TRY_STMT)
      else some (p3, m.complete p3 TRY_STMT)

end

/-! Concrete inputs used by the theorems below.  `tok` builds a token with
no preceding linebreak; `mk_input` builds a parser at position 0 with no
diagnostics yet. -/

/-- A token with no linebreak before it. -/
def tok (k : SyntaxKind) (a b : Nat) (s : String) : Token :=
  ⟨k, ⟨a, b⟩, false, s⟩

/-- A parser over the given tokens at position 0. -/
def mk_input (ts : List Token) (n : Nat) (st : ParserState) : Parser :=
  ⟨ts, 0, n, st, [], 0, 0⟩

/-- Input `switch ( x ) { y }`: at clause position the token `y` is neither
`case` nor `default`. -/
def input_switch_stuck : Parser :=
  mk_input
    [tok SWITCH_KW 0 6 "switch", tok L_PAREN 7 8 "(", tok IDENT 8 9 "x",
     tok R_PAREN 9 10 ")", tok L_CURLY 11 12 "\x7b", tok IDENT 13 14 "y",
     tok R_CURLY 15 16 "\x7d"] 16 init_state

/-- `input_switch_stuck` as the clause loop of `switch_stmt` first sees it:
after `switch ( x ) {` has been consumed, with the diagnostics emitted so
far abstracted as `errs`. -/
def switch_stuck_loop_state (errs : List Diagnostic) : Parser :=
  { input_switch_stuck with pos := 5, errors := errs, last_end := 12, expr_calls := 1 }

/-- The diagnostic `switch_clause` emits at the stuck position of
`input_switch_stuck`. -/
def switch_stuck_err : Diagnostic :=
  (err_builder case_clause_msg).primary_span ⟨13, 14⟩
    "Expected the start to a case or default clause here"

/-- Input `a : break ;` with an empty label map. -/
def input_labelled_break : Parser :=
  mk_input
    [tok IDENT 0 1 "a", tok COLON 1 2 ":", tok BREAK_KW 3 8 "break",
     tok SEMICOLON 8 9 ";"] 9 init_state

/-- A parser state inside a loop body: both iteration flags are set. -/
def loop_body_state : ParserState :=
  { init_state with break_allowed := true, continue_allowed := true }

/-- Input `do ; while ( b )` entered with both iteration flags already
true. -/
def input_do_inside_loop : Parser :=
  mk_input
    [tok DO_KW 0 2 "do", tok SEMICOLON 3 4 ";", tok WHILE_KW 5 10 "while",
     tok L_PAREN 11 12 "(", tok IDENT 12 13 "b", tok R_PAREN 13 14 ")"] 14
    loop_body_state

/-- Input `for ( ; ; ) ;` entered with both iteration flags already true. -/
def input_for_inside_loop : Parser :=
  mk_input
    [tok FOR_KW 0 3 "for", tok L_PAREN 4 5 "(", tok SEMICOLON 5 6 ";",
     tok SEMICOLON 6 7 ";", tok R_PAREN 7 8 ")", tok SEMICOLON 9 10 ";"] 10
    loop_body_state

/-- Input `foo ; "use strict" ;`: the first statement is an expression
statement whose expression is a `Name`, not a string literal, so per the
spec the directive prologue ends there. -/
def input_prologue_foo : Parser :=
  mk_input
    [tok IDENT 0 3 "foo", tok SEMICOLON 3 4 ";",
     tok STRING 5 18 "\"use strict\"", tok SEMICOLON 18 19 ";"] 19 init_state

/-- Input `break ; f`: an invalid break followed by another token. -/
def input_break_then_tok : Parser :=
  mk_input
    [tok BREAK_KW 0 5 "break", tok SEMICOLON 5 6 ";", tok IDENT 7 8 "f"] 8
    init_state

/-- Input `x` alone: an identifier where a statement terminator is needed,
with no preceding linebreak. -/
def input_semi_tok : Parser :=
  mk_input [tok IDENT 4 5 "x"] 5 init_state

/-- Input `a : ;` entered with `a` already bound in the label map (as inside
an enclosing `a :` statement). -/
def input_dup_label : Parser :=
  mk_input [tok IDENT 5 6 "a", tok COLON 6 7 ":", tok SEMICOLON 7 8 ";"] 8
    { init_state with labels := [("a", ⟨0, 1⟩)] }

/-- Input `continue ;` outside any loop. -/
def input_continue_top : Parser :=
  mk_input [tok CONTINUE_KW 0 8 "continue", tok SEMICOLON 8 9 ";"] 9 init_state

/-- Input `return 1` at top level (not inside a function). -/
def input_return_top : Parser :=
  mk_input [tok RETURN_KW 0 6 "return", tok NUMBER 7 8 "1"] 8 init_state

/-- Input `throw` followed by an expression on the next line: the `e` token
carries the preceding-linebreak flag. -/
def input_throw_lb : Parser :=
  mk_input [tok THROW_KW 0 5 "throw", ⟨IDENT, ⟨6, 7⟩, true, "e"⟩,
    tok SEMICOLON 7 8 ";"] 8 init_state

/-- Input `(` alone: a token in the expression first set on which the
modelled expression sub-parser returns no completed marker. -/
def input_lparen : Parser :=
  mk_input [tok L_PAREN 0 1 "("] 1 init_state

/-- Input `: else if`: a `:` matches no dispatch case of `stmt` and is not
in the expression first set; `else` is skipped by recovery, `if` is in the
recovery set. -/
def input_colon : Parser :=
  mk_input [tok COLON 0 1 ":", tok ELSE_KW 2 6 "else", tok IF_KW 7 9 "if"] 9
    init_state

/-- The duplicate-label diagnostic `stmt` emits for a label `name` whose
prior occurrence is stored at `prior`, with the current (`:`) token at
`cur`. -/
def dup_err (name : String) (prior cur : Rng) : Diagnostic :=
  ((err_builder dup_label_msg).secondary_span prior
    ("`" ++ name ++ "` is first used as a label here")).primary_span cur
    ("a second use of `" ++ name ++ "` here is not allowed")

/-- The parser as the duplicate-label path of `stmt` hands it to the
sub-statement: the identifier and the `:` (at range `cur`) consumed, the
duplicate-label diagnostic appended, one expression-sub-parser call ticked,
and the state — in particular the label map — untouched. -/
def dup_mid (p : Parser) (name : String) (cur prior : Rng) : Parser :=
  { p with
    pos := p.pos + 1 + 1
    errors := p.errors ++ [dup_err name prior cur]
    last_end := cur.stop
    expr_calls := p.expr_calls + 1 }

/-- The parser after the duplicate-label path of `stmt` has consumed just
the label identifier (whose range is `r1`): one token consumed, one
expression-sub-parser call ticked, nothing else changed. -/
def dup_p1 (p : Parser) (r1 : Rng) : Parser :=
  { p with
    pos := p.pos + 1
    last_end := r1.stop
    expr_calls := p.expr_calls + 1 }

/-- The dispatch tests of `stmt`, in source order: a token matches a
dispatch case exactly when this is true. -/
def stmt_dispatched (p : Parser) : Bool :=
  p.at_ SEMICOLON || p.at_ L_CURLY || p.at_ IF_KW || p.at_ WITH_KW
    || p.at_ WHILE_KW || p.at_ VAR_KW || p.at_ CONST_KW || p.at_ FOR_KW
    || p.at_ DO_KW || p.at_ SWITCH_KW || p.at_ TRY_KW || p.at_ RETURN_KW
    || p.at_ BREAK_KW || p.at_ CONTINUE_KW || p.at_ THROW_KW
    || p.at_ DEBUGGER_KW || p.at_ FUNCTION_KW || p.at_ CLASS_KW
    || (p.at_ IDENT && p.cur_src = "async" && p.nth_at 1 FUNCTION_KW
        && !(p.has_linebreak_before_n 1))
    || (p.at_ IDENT && p.cur_src = "let" && FOLLOWS_LET.contains (p.nth 1))

/-- The number of diagnostics in a list that carry a given message. -/
def msg_count (m : String) (errs : List Diagnostic) : Nat :=
  (errs.filter (fun d => d.message = m)).length

/-! Small facts about the primitives, used to reason about the statement
rules on arbitrary parsers. -/

theorem msg_count_append (m : String) (a b : List Diagnostic) :
    msg_count m (a ++ b) = msg_count m a + msg_count m b := by
  simp [msg_count, List.filter_append]

theorem msg_count_eq_zero (m : String) (t : List Diagnostic)
    (h : ∀ d ∈ t, d.message ≠ m) : msg_count m t = 0 := by
  simp only [msg_count, List.length_eq_zero, List.filter_eq_nil_iff]
  intro d hd
  simpa using h d hd

@[simp] theorem error_nth_tok (p : Parser) (d : Diagnostic) (k : Nat) :
    (p.error d).nth_tok k = p.nth_tok k := rfl

@[simp] theorem error_cur_tok (p : Parser) (d : Diagnostic) :
    (p.error d).cur_tok = p.cur_tok := rfl

@[simp] theorem error_state (p : Parser) (d : Diagnostic) :
    (p.error d).state = p.state := rfl

@[simp] theorem error_errors (p : Parser) (d : Diagnostic) :
    (p.error d).errors = p.errors ++ [d] := rfl

@[simp] theorem error_expr_calls (p : Parser) (d : Diagnostic) :
    (p.error d).expr_calls = p.expr_calls := rfl

@[simp] theorem bump_any_state (p : Parser) : p.bump_any.state = p.state := by
  unfold Parser.bump_any; split <;> rfl

@[simp] theorem bump_any_errors (p : Parser) : p.bump_any.errors = p.errors := by
  unfold Parser.bump_any; split <;> rfl

@[simp] theorem bump_any_expr_calls (p : Parser) :
    p.bump_any.expr_calls = p.expr_calls := by
  unfold Parser.bump_any; split <;> rfl

theorem bump_any_nth_tok (p : Parser) (h : p.cur ≠ EOF) (k : Nat) :
    p.bump_any.nth_tok k = p.nth_tok (k + 1) := by
  unfold Parser.bump_any
  rw [if_neg h]
  simp [Parser.nth_tok, Nat.add_assoc, Nat.add_comm 1 k]

theorem expr_state (p : Parser) : (expr p).1.state = p.state := by
  unfold expr
  split <;> simp

theorem expr_errors (p : Parser) : (expr p).1.errors = p.errors := by
  unfold expr
  split <;> simp

theorem expr_expr_calls (p : Parser) : (expr p).1.expr_calls = p.expr_calls + 1 := by
  unfold expr
  split <;> simp

theorem primary_expr_state (p : Parser) : (primary_expr p).1.state = p.state := by
  unfold primary_expr
  split <;> simp

theorem primary_expr_errors (p : Parser) : (primary_expr p).1.errors = p.errors := by
  unfold primary_expr
  split <;> simp

theorem primary_expr_expr_calls (p : Parser) :
    (primary_expr p).1.expr_calls = p.expr_calls := by
  unfold primary_expr
  split <;> simp

theorem check_label_use_state (p : Parser) (l : CompletedMarker) :
    (check_label_use p l).state = p.state := by
  unfold check_label_use
  split
  · split <;> simp
  · rfl

theorem check_label_use_cur_tok (p : Parser) (l : CompletedMarker) :
    (check_label_use p l).cur_tok = p.cur_tok := by
  unfold check_label_use
  split
  · split <;> simp
  · rfl

theorem check_label_use_expr_calls (p : Parser) (l : CompletedMarker) :
    (check_label_use p l).expr_calls = p.expr_calls := by
  unfold check_label_use
  split
  · split <;> simp
  · rfl

theorem check_label_use_errors (p : Parser) (l : CompletedMarker) :
    ∃ t, (check_label_use p l).errors = p.errors ++ t
      ∧ ∀ d ∈ t, d.message = undefined_label_msg := by
  unfold check_label_use
  split
  · split
    · exact ⟨[], by simp⟩
    · refine ⟨[(err_builder undefined_label_msg).primary_span l.range ""], by simp, ?_⟩
      intro d hd
      simp at hd
      subst hd
      rfl
  · exact ⟨[], by simp⟩

theorem semi_state (p : Parser) (r : Rng) : (semi p r).state = p.state := by
  unfold semi
  split
  · simp
  · split
    · rfl
    · split <;> rfl

theorem semi_expr_calls (p : Parser) (r : Rng) :
    (semi p r).expr_calls = p.expr_calls := by
  unfold semi
  split
  · simp
  · split
    · rfl
    · split <;> rfl

theorem semi_cur_tok (p : Parser) (r : Rng) (h : ¬(p.at_ SEMICOLON = true)) :
    (semi p r).cur_tok = p.cur_tok := by
  unfold semi
  rw [if_neg h]
  split
  · rfl
  · split <;> rfl

theorem semi_errors (p : Parser) (r : Rng) :
    ∃ t, (semi p r).errors = p.errors ++ t ∧ ∀ d ∈ t, d.message = semi_msg := by
  unfold semi
  split
  · exact ⟨[], by simp⟩
  · split
    · exact ⟨[], by simp⟩
    · split
      · refine ⟨[((err_builder semi_msg).primary_span p.cur_tok.range
          "An explicit or implicit semicolon is expected here...").secondary_span
          r "...Which is required to end this statement"], by simp, ?_⟩
        intro d hd
        simp at hd
        subst hd
        rfl
      · exact ⟨[], by simp⟩

/-- One iteration of the clause loop at the stuck position of
`input_switch_stuck` consumes nothing: `switch_clause` only appends its
diagnostic, so the loop revisits the same position for ever and exhausts
any fuel. -/
theorem switch_loop_stuck (fuel : Nat) :
    ∀ errs, switch_loop fuel (switch_stuck_loop_state errs) none = none := by
  induction fuel with
  | zero => intro errs; rfl
  | succ f ih =>
    intro errs
    cases f with
    | zero => rfl
    | succ g =>
      have step :
          switch_loop (g + 2) (switch_stuck_loop_state errs) none
            = switch_loop (g + 1) (switch_stuck_loop_state (errs ++ [switch_stuck_err]))
                none := rfl
      rw [step]
      exact ih (errs ++ [switch_stuck_err])

/-- C1: the claim that the clause loop of `switch_stmt` terminates for
every input fails on the code.  On `switch ( x ) { y }` the token at clause
position is neither `case` nor `default`; `switch_clause` emits a
diagnostic and consumes nothing, so the loop never progresses: for every
fuel bound, `switch_stmt` fails to complete. -/
theorem C1_switch_stmt_diverges :
    ∀ fuel, switch_stmt fuel input_switch_stuck = none := by
  intro fuel
  cases fuel with
  | zero => rfl
  | succ f =>
    show (switch_loop f (switch_stuck_loop_state []) none).bind _ = none
    rw [switch_loop_stuck f []]
    rfl

/-- C2: the claim that a label is absent from the label map immediately
after its sub-statement's parse completes fails on the code.  Parsing
`a : break ;` from an empty label map completes a `LabelledStmt`, yet the
final state still maps `a`; and no invalid-break diagnostic was emitted,
which shows the label was visible while the sub-statement was parsed
(`break_stmt` checks `labels.is_empty`). -/
theorem C2_label_survives_labelled_stmt :
    (stmt 5 input_labelled_break).map
        (fun r => (r.1.state.labels, r.1.errors, r.2.map (fun c => c.kind)))
      = some ([("a", ⟨0, 1⟩)], [], some LABELLED_STMT) := rfl

/-- C3: the claim that `do_stmt` and `for_stmt` restore the iteration flags
to their entry values fails on the code.  Entering either rule with
`break_allowed = continue_allowed = true` (as inside an enclosing loop
body), the trailing `iteration_stmt(false)` sets both flags to `false`
instead of restoring them, so the state after the call differs from the
state at entry. -/
theorem C3_iteration_flags_clobbered :
    input_do_inside_loop.state.break_allowed = true
      ∧ input_do_inside_loop.state.continue_allowed = true
      ∧ (do_stmt 5 input_do_inside_loop).map
          (fun r => (r.1.state.break_allowed, r.1.state.continue_allowed))
        = some (false, false)
      ∧ input_for_inside_loop.state.break_allowed = true
      ∧ input_for_inside_loop.state.continue_allowed = true
      ∧ (for_stmt 5 input_for_inside_loop).map
          (fun r => (r.1.state.break_allowed, r.1.state.continue_allowed))
        = some (false, false) :=
  ⟨rfl, rfl, rfl, rfl, rfl, rfl⟩

/-- C4: the claim that no statement after the end of the directive prologue
can transition the state to strict mode fails on the code.  In
`foo ; "use strict" ;` the first statement is an expression statement whose
expression is not a string literal, so the prologue ends there; yet the
item loop of `block_items` (run with `directives = true`) leaves
`could_be_directive` set for non-literal expression statements, and the
later `"use strict"` switches the state to strict mode. -/
theorem C4_strict_after_prologue_end :
    input_prologue_foo.state.strict = false
      ∧ (block_items_loop 9 input_prologue_foo true true true).map
          (fun q => (q.state.strict, q.errors)) = some (true, []) :=
  ⟨rfl, rfl⟩

/-- C7 counterexample: the invalid-break diagnostic does not span the full
statement.  On `break ; f` the completed `BreakStmt` node spans `[0, 6)`
(`break ;`), but the diagnostic's primary span is `[0, 8)` — it runs to the
end of the token that is current after `semi`, past the statement. -/
theorem C7_break_span_counterexample :
    (break_stmt input_break_then_tok).1.errors.map
        (fun d => d.primary.map (fun s => s.range)) = [some ⟨0, 8⟩]
      ∧ (break_stmt input_break_then_tok).2.range = ⟨0, 6⟩
      ∧ (⟨0, 8⟩ : Rng) ≠ (⟨0, 6⟩ : Rng) :=
  ⟨rfl, rfl, by decide⟩

/-- C6: contract of `semi` at every parser position.  If the current token
is `;` it is consumed (and only then is any token consumed) and no
diagnostic is emitted; at EOF nothing happens; otherwise, exactly when no
linebreak precedes the current token, one diagnostic is emitted whose
primary span is the current token's range and whose secondary span is
`err_range`. -/
theorem C6_semi_spec (p : Parser) (r : Rng) :
    (p.cur = SEMICOLON →
      semi p r = p.bump_any ∧ (semi p r).errors = p.errors
        ∧ (semi p r).pos = p.pos + 1)
    ∧ (p.cur = EOF → semi p r = p)
    ∧ (p.cur ≠ SEMICOLON → p.cur ≠ EOF → p.has_linebreak_before_n 0 = false →
        semi p r = p.error (((err_builder semi_msg).primary_span p.cur_tok.range
          "An explicit or implicit semicolon is expected here...").secondary_span r
          "...Which is required to end this statement"))
    ∧ (p.cur ≠ SEMICOLON → p.cur ≠ EOF → p.has_linebreak_before_n 0 = true →
        semi p r = p) := by
  refine ⟨?_, ?_, ?_, ?_⟩
  · intro h
    have hat : p.at_ SEMICOLON = true := by simp [Parser.at_, h]
    refine ⟨by simp [semi, hat], by simp [semi, hat], ?_⟩
    have hne : ¬p.cur = EOF := by simp [h]
    simp [semi, hat, Parser.bump_any, hne]
  · intro h
    have h1 : p.at_ SEMICOLON = false := by simp [Parser.at_, h]
    have h2 : p.at_ EOF = true := by simp [Parser.at_, h]
    simp [semi, h1, h2]
  · intro h1 h2 h3
    simp [semi, Parser.at_, h1, h2, h3]
  · intro h1 h2 h3
    simp [semi, Parser.at_, h1, h2, h3]

/-- Witness for C6: on the concrete input `x` (an identifier, no preceding
linebreak) `semi` emits exactly the ASI diagnostic. -/
theorem C6_semi_spec_witness :
    semi input_semi_tok ⟨0, 4⟩ = input_semi_tok.error
      (((err_builder semi_msg).primary_span input_semi_tok.cur_tok.range
        "An explicit or implicit semicolon is expected here...").secondary_span
        ⟨0, 4⟩ "...Which is required to end this statement") :=
  (C6_semi_spec input_semi_tok ⟨0, 4⟩).2.2.1 (by decide) (by decide) rfl

/-- C8: contract of `return_stmt`.  A `ReturnStmt` node is always
completed; the illegal-return diagnostic is emitted exactly when
`in_function` is false, with the completed node's range as its primary
span; and the operand expression is parsed exactly when no linebreak
precedes the token after `return` and that token is in the expression
first set. -/
theorem C8_return_spec (p : Parser) (h : p.cur = RETURN_KW) :
    (return_stmt p).2.kind = RETURN_STMT
    ∧ msg_count illegal_return_msg (return_stmt p).1.errors
        = msg_count illegal_return_msg p.errors
          + (if p.state.in_function then 0 else 1)
    ∧ (p.state.in_function = false →
        ∃ t, (return_stmt p).1.errors
          = t ++ [(err_builder illegal_return_msg).primary_span
              (return_stmt p).2.range ""])
    ∧ (return_stmt p).1.expr_calls
        = p.expr_calls
          + (if !(p.nth_tok 1).lb && STARTS_EXPR.contains (p.nth 1) then 1 else 0) := by
  have hexp : p.expect RETURN_KW = (p.bump_any, true) := by
    simp [Parser.expect, h]
  have hne : p.cur ≠ EOF := by simp [h]
  have hrs : return_stmt p =
      (let p1 := p.bump_any
       let p2 := if !(p1.has_linebreak_before_n 0) && p1.at_ts STARTS_EXPR
         then (expr p1).1 else p1
       let p3 := semi p2 ⟨p.cur_tok.range.start, p2.cur_tok.range.stop⟩
       let complete := Marker.complete ⟨p.cur_tok.range.start⟩ p3 RETURN_STMT
       let p4 := if !p3.state.in_function then
           p3.error ((err_builder illegal_return_msg).primary_span complete.range "")
         else p3
       (p4, complete)) := by
    unfold return_stmt
    rw [hexp]
    rfl
  rw [hrs]
  clear hrs
  set p1 := p.bump_any with hp1
  set p2 := if !(p1.has_linebreak_before_n 0) && p1.at_ts STARTS_EXPR
    then (expr p1).1 else p1 with hp2
  set p3 := semi p2 ⟨p.cur_tok.range.start, p2.cur_tok.range.stop⟩ with hp3
  have hstate2 : p2.state = p.state := by
    rw [hp2]
    split
    · rw [expr_state, bump_any_state]
    · rw [bump_any_state]
  have herr2 : p2.errors = p.errors := by
    rw [hp2]
    split
    · rw [expr_errors, bump_any_errors]
    · rw [bump_any_errors]
  have hcond : (!(p1.has_linebreak_before_n 0) && p1.at_ts STARTS_EXPR)
      = (!(p.nth_tok 1).lb && STARTS_EXPR.contains (p.nth 1)) := by
    rw [hp1]
    unfold Parser.has_linebreak_before_n Parser.at_ts Parser.cur Parser.cur_tok
      Parser.nth
    rw [bump_any_nth_tok p hne 0]
  have hghost2 : p2.expr_calls
      = p.expr_calls
        + (if !(p.nth_tok 1).lb && STARTS_EXPR.contains (p.nth 1) then 1 else 0) := by
    rw [hp2, hcond]
    split
    · rw [expr_expr_calls, bump_any_expr_calls]
    · rw [bump_any_expr_calls]
      simp
  have hstate3 : p3.state = p.state := by rw [hp3, semi_state, hstate2]
  have hghost3 : p3.expr_calls = p2.expr_calls := by rw [hp3, semi_expr_calls]
  obtain ⟨t3, ht3, hm3⟩ := semi_errors p2 ⟨p.cur_tok.range.start, p2.cur_tok.range.stop⟩
  have herr3 : p3.errors = p.errors ++ t3 := by rw [hp3, ht3, herr2]
  have ht3count : msg_count illegal_return_msg t3 = 0 := by
    refine msg_count_eq_zero _ _ (fun d hd => ?_)
    rw [hm3 d hd]
    decide
  refine ⟨rfl, ?_, ?_, ?_⟩
  · cases hin : p.state.in_function with
    | false =>
      have : (!p3.state.in_function) = true := by rw [hstate3, hin]; rfl
      simp only [this, if_true, if_false]
      rw [error_errors, herr3, msg_count_append, msg_count_append, ht3count]
      rfl
    | true =>
      have : (!p3.state.in_function) = false := by rw [hstate3, hin]; rfl
      simp only [this, Bool.false_eq_true, if_false, if_true]
      rw [herr3, msg_count_append, ht3count]
  · intro hin
    have : (!p3.state.in_function) = true := by rw [hstate3, hin]; rfl
    simp only [this, if_true]
    exact ⟨p.errors ++ t3, by rw [error_errors, herr3]⟩
  · have h4 : ∀ q : Parser, (if !p3.state.in_function then
        p3.error ((err_builder illegal_return_msg).primary_span
          (Marker.complete ⟨p.cur_tok.range.start⟩ p3 RETURN_STMT).range "")
      else p3).expr_calls = p3.expr_calls := by
      intro _
      split
      · rw [error_expr_calls]
      · rfl
    rw [h4 p, hghost3, hghost2]

/-- Witness for C8: the contract instantiated at `return 1` parsed at top
level (`in_function` false): the node is a `ReturnStmt`, exactly one
illegal-return diagnostic is emitted with the node's range as primary span,
and the operand expression is parsed. -/
theorem C8_return_spec_witness :
    (return_stmt input_return_top).2.kind = RETURN_STMT
    ∧ msg_count illegal_return_msg (return_stmt input_return_top).1.errors
        = msg_count illegal_return_msg input_return_top.errors
          + (if input_return_top.state.in_function then 0 else 1)
    ∧ (input_return_top.state.in_function = false →
        ∃ t, (return_stmt input_return_top).1.errors
          = t ++ [(err_builder illegal_return_msg).primary_span
              (return_stmt input_return_top).2.range ""])
    ∧ (return_stmt input_return_top).1.expr_calls
        = input_return_top.expr_calls
          + (if !(input_return_top.nth_tok 1).lb
                && STARTS_EXPR.contains (input_return_top.nth 1) then 1 else 0) :=
  C8_return_spec input_return_top rfl

/-- C9: contract of `throw_stmt`.  A `ThrowStmt` node is always completed;
when a linebreak precedes the token after `throw`, exactly one linebreak
diagnostic is emitted — at that token's range, with the "did you mean to
throw this?" secondary span exactly when that token is in the expression
first set — and the expression sub-parser is not invoked; otherwise no
linebreak diagnostic is emitted and the expression sub-parser is invoked
once. -/
theorem C9_throw_spec (p : Parser) (h : p.cur = THROW_KW) :
    (throw_stmt p).2.kind = THROW_STMT
    ∧ msg_count throw_lb_msg (throw_stmt p).1.errors
        = msg_count throw_lb_msg p.errors + (if (p.nth_tok 1).lb then 1 else 0)
    ∧ ((p.nth_tok 1).lb = true →
        ∃ t, (throw_stmt p).1.errors
          = p.errors
            ++ [if STARTS_EXPR.contains (p.nth 1) then
                  ((err_builder throw_lb_msg).primary_span (p.nth_tok 1).range
                    "A linebreak is not allowed here").secondary_span
                    (p.nth_tok 1).range "Help: did you mean to throw this?"
                else
                  (err_builder throw_lb_msg).primary_span (p.nth_tok 1).range
                    "A linebreak is not allowed here"]
            ++ t
          ∧ ∀ d ∈ t, d.message = semi_msg)
    ∧ (throw_stmt p).1.expr_calls
        = p.expr_calls + (if (p.nth_tok 1).lb then 0 else 1) := by
  have hexp : p.expect THROW_KW = (p.bump_any, true) := by
    simp [Parser.expect, h]
  have hne : p.cur ≠ EOF := by simp [h]
  have hnth : p.bump_any.nth_tok 0 = p.nth_tok 1 := bump_any_nth_tok p hne 0
  have hrs : throw_stmt p =
      (let p1 := p.bump_any
       let p2 :=
         if p1.has_linebreak_before_n 0 then
           p1.error
             (if p1.at_ts STARTS_EXPR then
               ((err_builder throw_lb_msg).primary_span p1.cur_tok.range
                 "A linebreak is not allowed here").secondary_span p1.cur_tok.range
                 "Help: did you mean to throw this?"
             else
               (err_builder throw_lb_msg).primary_span p1.cur_tok.range
                 "A linebreak is not allowed here")
         else (expr p1).1
       let p3 := semi p2 ⟨p.cur_tok.range.start, p2.cur_tok.range.stop⟩
       (p3, Marker.complete ⟨p.cur_tok.range.start⟩ p3 THROW_STMT)) := by
    unfold throw_stmt
    rw [hexp]
    rfl
  rw [hrs]
  clear hrs
  dsimp only
  set p1 := p.bump_any with hp1
  have hlb1 : p1.has_linebreak_before_n 0 = (p.nth_tok 1).lb := by
    rw [hp1]
    unfold Parser.has_linebreak_before_n
    rw [hnth]
  have hct1 : p1.cur_tok = p.nth_tok 1 := by
    rw [hp1]
    unfold Parser.cur_tok
    rw [hnth]
  have hat1 : p1.at_ts STARTS_EXPR = STARTS_EXPR.contains (p.nth 1) := by
    unfold Parser.at_ts Parser.cur Parser.nth
    rw [hct1]
  set errT :=
    if STARTS_EXPR.contains (p.nth 1) then
      ((err_builder throw_lb_msg).primary_span (p.nth_tok 1).range
        "A linebreak is not allowed here").secondary_span
        (p.nth_tok 1).range "Help: did you mean to throw this?"
    else
      (err_builder throw_lb_msg).primary_span (p.nth_tok 1).range
        "A linebreak is not allowed here" with herrT
  have herrTmsg : errT.message = throw_lb_msg := by
    rw [herrT]
    split <;> rfl
  cases hlb : (p.nth_tok 1).lb with
  | true =>
    set p2 := p1.error errT with hp2
    have hstep : (if p1.has_linebreak_before_n 0 then
        p1.error
          (if p1.at_ts STARTS_EXPR then
            ((err_builder throw_lb_msg).primary_span p1.cur_tok.range
              "A linebreak is not allowed here").secondary_span p1.cur_tok.range
              "Help: did you mean to throw this?"
          else
            (err_builder throw_lb_msg).primary_span p1.cur_tok.range
              "A linebreak is not allowed here")
      else (expr p1).1) = p2 := by
      rw [hlb1, hlb, if_pos rfl, hp2, herrT, hct1, hat1]
    rw [hstep]
    obtain ⟨t3, ht3, hm3⟩ :=
      semi_errors p2 ⟨p.cur_tok.range.start, p2.cur_tok.range.stop⟩
    have herr2 : p2.errors = p.errors ++ [errT] := by
      rw [hp2, error_errors, hp1, bump_any_errors]
    have herr3 : (semi p2 ⟨p.cur_tok.range.start, p2.cur_tok.range.stop⟩).errors
        = p.errors ++ [errT] ++ t3 := by rw [ht3, herr2]
    have ht3count : msg_count throw_lb_msg t3 = 0 := by
      refine msg_count_eq_zero _ _ (fun d hd => ?_)
      rw [hm3 d hd]
      decide
    refine ⟨rfl, ?_, ?_, ?_⟩
    · rw [herr3, msg_count_append, msg_count_append, ht3count]
      have : msg_count throw_lb_msg [errT] = 1 := by
        unfold msg_count
        rw [List.filter_cons]
        simp [herrTmsg]
      rw [this]
      simp
    · intro _
      exact ⟨t3, herr3, hm3⟩
    · rw [semi_expr_calls, hp2, error_expr_calls, hp1, bump_any_expr_calls]
      simp
  | false =>
    set p2 := (expr p1).1 with hp2
    have hstep : (if p1.has_linebreak_before_n 0 then
        p1.error
          (if p1.at_ts STARTS_EXPR then
            ((err_builder throw_lb_msg).primary_span p1.cur_tok.range
              "A linebreak is not allowed here").secondary_span p1.cur_tok.range
              "Help: did you mean to throw this?"
          else
            (err_builder throw_lb_msg).primary_span p1.cur_tok.range
              "A linebreak is not allowed here")
      else (expr p1).1) = p2 := by
      rw [hlb1, hlb]
      rfl
    rw [hstep]
    obtain ⟨t3, ht3, hm3⟩ :=
      semi_errors p2 ⟨p.cur_tok.range.start, p2.cur_tok.range.stop⟩
    have herr2 : p2.errors = p.errors := by
      rw [hp2, expr_errors, hp1, bump_any_errors]
    have ht3count : msg_count throw_lb_msg t3 = 0 := by
      refine msg_count_eq_zero _ _ (fun d hd => ?_)
      rw [hm3 d hd]
      decide
    refine ⟨rfl, ?_, ?_, ?_⟩
    · rw [ht3, herr2, msg_count_append, ht3count]
      simp
    · intro hcontra
      exact absurd hcontra (by simp)
    · rw [semi_expr_calls, hp2, expr_expr_calls, hp1, bump_any_expr_calls]
      simp

/-- Witness for C9: the contract instantiated at `throw` followed by a
linebreak and an expression: exactly one linebreak diagnostic with the
"did you mean to throw this?" secondary span, and no expression parsed. -/
theorem C9_throw_spec_witness :
    (throw_stmt input_throw_lb).2.kind = THROW_STMT
    ∧ msg_count throw_lb_msg (throw_stmt input_throw_lb).1.errors
        = msg_count throw_lb_msg input_throw_lb.errors
          + (if (input_throw_lb.nth_tok 1).lb then 1 else 0)
    ∧ ((input_throw_lb.nth_tok 1).lb = true →
        ∃ t, (throw_stmt input_throw_lb).1.errors
          = input_throw_lb.errors
            ++ [if STARTS_EXPR.contains (input_throw_lb.nth 1) then
                  ((err_builder throw_lb_msg).primary_span
                    (input_throw_lb.nth_tok 1).range
                    "A linebreak is not allowed here").secondary_span
                    (input_throw_lb.nth_tok 1).range
                    "Help: did you mean to throw this?"
                else
                  (err_builder throw_lb_msg).primary_span
                    (input_throw_lb.nth_tok 1).range
                    "A linebreak is not allowed here"]
            ++ t
          ∧ ∀ d ∈ t, d.message = semi_msg)
    ∧ (throw_stmt input_throw_lb).1.expr_calls
        = input_throw_lb.expr_calls
          + (if (input_throw_lb.nth_tok 1).lb then 0 else 1) :=
  C9_throw_spec input_throw_lb rfl

/-- The optional-label path shared by `break_stmt` and `continue_stmt`
leaves the state untouched. -/
theorem label_path_state (p1 : Parser) (b : Bool) :
    (if b then
      (match (primary_expr p1).2 with
       | some l => check_label_use (primary_expr p1).1 l
       | none => (primary_expr p1).1)
    else p1).state = p1.state := by
  cases b
  · rfl
  · simp only [if_true]
    cases hm : (primary_expr p1).2 with
    | some l => rw [check_label_use_state, primary_expr_state]
    | none => rw [primary_expr_state]

/-- The optional-label path of `break_stmt` and `continue_stmt` only
appends label-use diagnostics. -/
theorem label_path_errors (p1 : Parser) (b : Bool) :
    ∃ t, (if b then
        (match (primary_expr p1).2 with
         | some l => check_label_use (primary_expr p1).1 l
         | none => (primary_expr p1).1)
      else p1).errors = p1.errors ++ t
      ∧ ∀ d ∈ t, d.message = undefined_label_msg := by
  cases b
  · exact ⟨[], by simp⟩
  · simp only [if_true]
    cases hm : (primary_expr p1).2 with
    | some l =>
      obtain ⟨t, ht, hmsg⟩ := check_label_use_errors (primary_expr p1).1 l
      exact ⟨t, by rw [ht, primary_expr_errors], hmsg⟩
    | none => exact ⟨[], by rw [primary_expr_errors]; simp⟩

/-- C7 (amended): after completing a break statement, `break_stmt` emits the
invalid-break diagnostic exactly when `break_allowed` is false and no label
is in scope, and likewise `continue_stmt` emits the invalid-continue
diagnostic exactly when `continue_allowed` is false; the diagnostic's
primary span runs from the statement's start to the end of the token that
is current after semicolon handling (which coincides with the statement's
extent only at EOF); in both cases the node is still completed
(`BreakStmt` / `ContinueStmt`). -/
theorem C7_break_continue_spec (p q : Parser)
    (hb : p.cur = BREAK_KW) (hc : q.cur = CONTINUE_KW) :
    (break_stmt p).2.kind = BREAK_STMT
    ∧ msg_count invalid_break_msg (break_stmt p).1.errors
        = msg_count invalid_break_msg p.errors
          + (if !p.state.break_allowed && p.state.labels.isEmpty then 1 else 0)
    ∧ ((!p.state.break_allowed && p.state.labels.isEmpty) = true →
        ∃ t, (break_stmt p).1.errors
          = t ++ [(err_builder invalid_break_msg).primary_span
              ⟨p.cur_tok.range.start, (break_stmt p).1.cur_tok.range.stop⟩
              "This break statement is invalid in this context"])
    ∧ (continue_stmt q).2.kind = CONTINUE_STMT
    ∧ msg_count invalid_continue_msg (continue_stmt q).1.errors
        = msg_count invalid_continue_msg q.errors
          + (if !q.state.continue_allowed then 1 else 0)
    ∧ ((!q.state.continue_allowed) = true →
        ∃ t, (continue_stmt q).1.errors
          = t ++ [(err_builder invalid_continue_msg).primary_span
              ⟨q.cur_tok.range.start, (continue_stmt q).1.cur_tok.range.stop⟩
              "This continue statement is invalid in this context"]) := by
  have hexpB : p.expect BREAK_KW = (p.bump_any, true) := by
    simp [Parser.expect, hb]
  have hexpC : q.expect CONTINUE_KW = (q.bump_any, true) := by
    simp [Parser.expect, hc]
  have hrsB : break_stmt p =
      (let p1 := p.bump_any
       let p2 := if !(p1.has_linebreak_before_n 0) && p1.at_ IDENT then
           (match (primary_expr p1).2 with
            | some l => check_label_use (primary_expr p1).1 l
            | none => (primary_expr p1).1)
         else p1
       let p3 := semi p2 ⟨p.cur_tok.range.start, p2.cur_tok.range.stop⟩
       let p4 := if !p3.state.break_allowed && p3.state.labels.isEmpty then
           p3.error ((err_builder invalid_break_msg).primary_span
             ⟨p.cur_tok.range.start, p3.cur_tok.range.stop⟩
             "This break statement is invalid in this context")
         else p3
       (p4, Marker.complete ⟨p.cur_tok.range.start⟩ p4 BREAK_STMT)) := by
    unfold break_stmt
    rw [hexpB]
    rfl
  have hrsC : continue_stmt q =
      (let p1 := q.bump_any
       let p2 := if !(p1.has_linebreak_before_n 0) && p1.at_ IDENT then
           (match (primary_expr p1).2 with
            | some l => check_label_use (primary_expr p1).1 l
            | none => (primary_expr p1).1)
         else p1
       let p3 := semi p2 ⟨q.cur_tok.range.start, p2.cur_tok.range.stop⟩
       let p4 := if !p3.state.continue_allowed then
           p3.error ((err_builder invalid_continue_msg).primary_span
             ⟨q.cur_tok.range.start, p3.cur_tok.range.stop⟩
             "This continue statement is invalid in this context")
         else p3
       (p4, Marker.complete ⟨q.cur_tok.range.start⟩ p4 CONTINUE_STMT)) := by
    unfold continue_stmt
    rw [hexpC]
    rfl
  rw [hrsB, hrsC]
  clear hrsB hrsC
  dsimp only
  set p1 := p.bump_any with hp1
  set q1 := q.bump_any with hq1
  set p2 := if !(p1.has_linebreak_before_n 0) && p1.at_ IDENT then
      (match (primary_expr p1).2 with
       | some l => check_label_use (primary_expr p1).1 l
       | none => (primary_expr p1).1)
    else p1 with hp2
  set q2 := if !(q1.has_linebreak_before_n 0) && q1.at_ IDENT then
      (match (primary_expr q1).2 with
       | some l => check_label_use (primary_expr q1).1 l
       | none => (primary_expr q1).1)
    else q1 with hq2
  set p3 := semi p2 ⟨p.cur_tok.range.start, p2.cur_tok.range.stop⟩ with hp3
  set q3 := semi q2 ⟨q.cur_tok.range.start, q2.cur_tok.range.stop⟩ with hq3
  have hstate2 : p2.state = p.state := by
    rw [hp2, label_path_state, hp1, bump_any_state]
  have hstate2q : q2.state = q.state := by
    rw [hq2, label_path_state, hq1, bump_any_state]
  have hstate3 : p3.state = p.state := by rw [hp3, semi_state, hstate2]
  have hstate3q : q3.state = q.state := by rw [hq3, semi_state, hstate2q]
  obtain ⟨t2, ht2, hm2⟩ :=
    label_path_errors p1 (!(p1.has_linebreak_before_n 0) && p1.at_ IDENT)
  obtain ⟨u2, hu2, hn2⟩ :=
    label_path_errors q1 (!(q1.has_linebreak_before_n 0) && q1.at_ IDENT)
  obtain ⟨t3, ht3, hm3⟩ := semi_errors p2 ⟨p.cur_tok.range.start, p2.cur_tok.range.stop⟩
  obtain ⟨u3, hu3, hn3⟩ := semi_errors q2 ⟨q.cur_tok.range.start, q2.cur_tok.range.stop⟩
  have herr3 : p3.errors = p.errors ++ t2 ++ t3 := by
    rw [hp3, ht3]
    rw [← hp2] at ht2
    rw [ht2, hp1, bump_any_errors]
  have herr3q : q3.errors = q.errors ++ u2 ++ u3 := by
    rw [hq3, hu3]
    rw [← hq2] at hu2
    rw [hu2, hq1, bump_any_errors]
  have ht2z : msg_count invalid_break_msg t2 = 0 := by
    refine msg_count_eq_zero _ _ (fun d hd => ?_)
    rw [hm2 d hd]
    decide
  have ht3z : msg_count invalid_break_msg t3 = 0 := by
    refine msg_count_eq_zero _ _ (fun d hd => ?_)
    rw [hm3 d hd]
    decide
  have hu2z : msg_count invalid_continue_msg u2 = 0 := by
    refine msg_count_eq_zero _ _ (fun d hd => ?_)
    rw [hn2 d hd]
    decide
  have hu3z : msg_count invalid_continue_msg u3 = 0 := by
    refine msg_count_eq_zero _ _ (fun d hd => ?_)
    rw [hn3 d hd]
    decide
  have hcond3 : (!p3.state.break_allowed && p3.state.labels.isEmpty)
      = (!p.state.break_allowed && p.state.labels.isEmpty) := by rw [hstate3]
  have hcond3q : (!q3.state.continue_allowed) = (!q.state.continue_allowed) := by
    rw [hstate3q]
  refine ⟨rfl, ?_, ?_, rfl, ?_, ?_⟩
  · rw [hcond3]
    cases hcnd : (!p.state.break_allowed && p.state.labels.isEmpty) with
    | true =>
      simp only [if_true]
      rw [error_errors, herr3, msg_count_append, msg_count_append, msg_count_append,
        ht2z, ht3z]
      simp [msg_count, err_builder, Diagnostic.primary_span]
    | false =>
      simp only [Bool.false_eq_true, if_false]
      rw [herr3, msg_count_append, msg_count_append, ht2z, ht3z]
  · intro hcnd
    rw [hcond3, hcnd]
    simp only [if_true]
    rw [error_cur_tok]
    exact ⟨p3.errors, by rw [error_errors]⟩
  · rw [hcond3q]
    cases hcnd : (!q.state.continue_allowed) with
    | true =>
      simp only [if_true]
      rw [error_errors, herr3q, msg_count_append, msg_count_append, msg_count_append,
        hu2z, hu3z]
      simp [msg_count, err_builder, Diagnostic.primary_span]
    | false =>
      simp only [Bool.false_eq_true, if_false]
      rw [herr3q, msg_count_append, msg_count_append, hu2z, hu3z]
  · intro hcnd
    rw [hcond3q, hcnd]
    simp only [if_true]
    rw [error_cur_tok]
    exact ⟨q3.errors, by rw [error_errors]⟩

/-- Witness for C7: the amended contract instantiated at `break ; f`
(invalid break, diagnostic emitted) and `continue ;` (invalid continue,
diagnostic emitted). -/
theorem C7_break_continue_spec_witness :
    (break_stmt input_break_then_tok).2.kind = BREAK_STMT
    ∧ msg_count invalid_break_msg (break_stmt input_break_then_tok).1.errors
        = msg_count invalid_break_msg input_break_then_tok.errors
          + (if !input_break_then_tok.state.break_allowed
                && input_break_then_tok.state.labels.isEmpty then 1 else 0)
    ∧ ((!input_break_then_tok.state.break_allowed
          && input_break_then_tok.state.labels.isEmpty) = true →
        ∃ t, (break_stmt input_break_then_tok).1.errors
          = t ++ [(err_builder invalid_break_msg).primary_span
              ⟨input_break_then_tok.cur_tok.range.start,
                (break_stmt input_break_then_tok).1.cur_tok.range.stop⟩
              "This break statement is invalid in this context"])
    ∧ (continue_stmt input_continue_top).2.kind = CONTINUE_STMT
    ∧ msg_count invalid_continue_msg (continue_stmt input_continue_top).1.errors
        = msg_count invalid_continue_msg input_continue_top.errors
          + (if !input_continue_top.state.continue_allowed then 1 else 0)
    ∧ ((!input_continue_top.state.continue_allowed) = true →
        ∃ t, (continue_stmt input_continue_top).1.errors
          = t ++ [(err_builder invalid_continue_msg).primary_span
              ⟨input_continue_top.cur_tok.range.start,
                (continue_stmt input_continue_top).1.cur_tok.range.stop⟩
              "This continue statement is invalid in this context"]) :=
  C7_break_continue_spec input_break_then_tok input_continue_top rfl rfl

/-- C5: contract of the duplicate-label path of `stmt`.  When the current
token is an identifier whose name is already in the label map and the next
token is `:`, `stmt` emits exactly one duplicate-label diagnostic — its
secondary span the prior occurrence's stored range, its primary span the
current (`:`) position — does not touch the label map (so the name stays
visible to the sub-statement, as `dup_mid`'s untouched state records), still
parses the sub-statement from `dup_mid`, and completes the node as
`LabelledStmt`. -/
theorem C5_duplicate_label_spec (fuel : Nat) (p : Parser) (name : String)
    (r1 r2 : Rng) (lb1 lb2 : Bool) (s2 : String) (prior : Rng)
    (h1 : p.cur_tok = ⟨IDENT, r1, lb1, name⟩)
    (h2 : p.nth_tok 1 = ⟨COLON, r2, lb2, s2⟩)
    (h3 : p.state.labels.lookup name = some prior) :
    stmt (fuel + 1) p
      = (stmt fuel (dup_mid p name r2 prior)).bind
          (fun x => some (x.1, some ⟨LABELLED_STMT, ⟨r1.start, x.1.last_end⟩, none⟩))
      ∧ (dup_mid p name r2 prior).errors = p.errors ++ [dup_err name prior r2]
      ∧ (dup_mid p name r2 prior).state = p.state
      ∧ ((dup_mid p name r2 prior).state.labels).lookup name = some prior := by
  have hcur : p.cur = IDENT := by rw [Parser.cur, h1]
  have hcurne : p.cur ≠ EOF := by rw [hcur]; decide
  have hnth1 : p.nth 1 = COLON := by rw [Parser.nth, h2]
  have hatf : ∀ k, IDENT ≠ k → p.at_ k = false := by
    intro k hk
    rw [Parser.at_, hcur]
    simpa using hk
  have hatt : p.at_ IDENT = true := by rw [Parser.at_, hcur]; simp
  have hfn : p.nth_at 1 FUNCTION_KW = false := by
    rw [Parser.nth_at, hnth1]
    simp
  have hfl : FOLLOWS_LET.contains (p.nth 1) = false := by
    rw [hnth1]
    rfl
  have hats : p.at_ts STARTS_EXPR = true := by
    rw [Parser.at_ts, hcur]
    rfl
  have hbump : p.bump_any = { p with pos := p.pos + 1, last_end := r1.stop } := by
    unfold Parser.bump_any
    rw [if_neg hcurne, h1]
  have hexpr : expr p = (dup_p1 p r1, some ⟨NAME, r1, some ⟨NAME, false, name⟩⟩) := by
    unfold expr
    rw [hcur]
    dsimp only
    rw [h1, hbump]
    unfold dup_p1
    rfl
  have hp1tok : (dup_p1 p r1).cur_tok = ⟨COLON, r2, lb2, s2⟩ := by
    unfold dup_p1 Parser.cur_tok Parser.nth_tok
    unfold Parser.nth_tok at h2
    simpa using h2
  have hp1at : (dup_p1 p r1).at_ COLON = true := by
    rw [Parser.at_, Parser.cur, hp1tok]
    simp
  have hp1lookup : (dup_p1 p r1).state.labels.lookup name = some prior := h3
  have hbump2 : ((dup_p1 p r1).error (dup_err name prior r2)).bump_any
      = dup_mid p name r2 prior := by
    have hcol : ((dup_p1 p r1).error (dup_err name prior r2)).cur = COLON := by
      rw [Parser.cur, error_cur_tok, hp1tok]
    unfold Parser.bump_any
    rw [hcol, if_neg (by decide : ¬((COLON : SyntaxKind) = EOF)), error_cur_tok,
      hp1tok]
    rfl
  refine ⟨?_, rfl, rfl, h3⟩
  simp only [stmt]
  rw [hatf SEMICOLON (by decide), hatf L_CURLY (by decide),
    hatf IF_KW (by decide), hatf WITH_KW (by decide), hatf WHILE_KW (by decide),
    hatf VAR_KW (by decide), hatf CONST_KW (by decide), hatf FOR_KW (by decide),
    hatf DO_KW (by decide), hatf SWITCH_KW (by decide), hatf TRY_KW (by decide),
    hatf RETURN_KW (by decide), hatf BREAK_KW (by decide),
    hatf CONTINUE_KW (by decide), hatf THROW_KW (by decide),
    hatf DEBUGGER_KW (by decide), hatf FUNCTION_KW (by decide),
    hatf CLASS_KW (by decide), hatt, hfn, hfl, hats]
  simp only [Bool.or_self, Bool.and_false, Bool.false_and, Bool.and_true,
    Bool.true_and, Bool.false_eq_true, eq_self_iff_true, if_false, if_true]
  rw [hexpr]
  dsimp only
  rw [hp1at]
  simp only [Bool.and_true, Bool.true_and, Bool.false_eq_true, eq_self_iff_true,
    if_false, if_true]
  simp only [Option.map_some, Option.map_some', Option.getD_some]
  rw [hp1lookup]
  dsimp only
  rw [hp1tok]
  dsimp only
  simp only [decide_True, if_true]
  rw [show ((err_builder dup_label_msg).secondary_span prior
        ("`" ++ name ++ "` is first used as a label here")).primary_span r2
        ("a second use of `" ++ name ++ "` here is not allowed")
      = dup_err name prior r2 from rfl]
  rw [hbump2]
  rfl

/-- Witness for C5: the duplicate-label contract instantiated at `a : ;`
parsed with `a` already in the label map at range `[0, 1)`. -/
theorem C5_duplicate_label_spec_witness :
    stmt (3 + 1) input_dup_label
      = (stmt 3 (dup_mid input_dup_label "a" ⟨6, 7⟩ ⟨0, 1⟩)).bind
          (fun x => some (x.1, some ⟨LABELLED_STMT, ⟨5, x.1.last_end⟩, none⟩))
    ∧ (dup_mid input_dup_label "a" ⟨6, 7⟩ ⟨0, 1⟩).errors
        = input_dup_label.errors ++ [dup_err "a" ⟨0, 1⟩ ⟨6, 7⟩]
    ∧ (dup_mid input_dup_label "a" ⟨6, 7⟩ ⟨0, 1⟩).state = input_dup_label.state
    ∧ ((dup_mid input_dup_label "a" ⟨6, 7⟩ ⟨0, 1⟩).state.labels).lookup "a"
        = some ⟨0, 1⟩ :=
  C5_duplicate_label_spec 3 input_dup_label "a" ⟨5, 6⟩ ⟨6, 7⟩ false false ":" ⟨0, 1⟩
    rfl rfl rfl

/-- C10: when the current token is in the expression first set but matches
no dispatch case of `stmt`, and the expression sub-parser returns no
completed marker, `stmt` returns `none` leaving the parser exactly as the
expression sub-parser left it — no "Expected a statement" diagnostic, no
recovery skipping; the recovery path runs only for tokens matching no
dispatch case at all (second conjunct). -/
theorem C10_stmt_expr_none_spec (fuel : Nat) (p q : Parser)
    (h1 : stmt_dispatched p = false) (h2 : p.at_ts STARTS_EXPR = true)
    (h3 : (expr p).2 = none)
    (h4 : stmt_dispatched q = false) (h5 : q.at_ts STARTS_EXPR = false) :
    stmt (fuel + 1) p = some ((expr p).1, none)
    ∧ stmt (fuel + 1) q
        = some (q.err_recover ((err_builder expected_stmt_msg).primary_span
            q.cur_tok.range "Expected a statement here") STMT_RECOVERY_SET, none) := by
  simp only [stmt_dispatched, Bool.or_eq_false_iff] at h1 h4
  obtain ⟨⟨⟨⟨⟨⟨⟨⟨⟨⟨⟨⟨⟨⟨⟨⟨⟨⟨⟨a1, a2⟩, a3⟩, a4⟩, a5⟩, a6⟩, a7⟩, a8⟩, a9⟩, a10⟩,
    a11⟩, a12⟩, a13⟩, a14⟩, a15⟩, a16⟩, a17⟩, a18⟩, a19⟩, a20⟩ := h1
  obtain ⟨⟨⟨⟨⟨⟨⟨⟨⟨⟨⟨⟨⟨⟨⟨⟨⟨⟨⟨b1, b2⟩, b3⟩, b4⟩, b5⟩, b6⟩, b7⟩, b8⟩, b9⟩, b10⟩,
    b11⟩, b12⟩, b13⟩, b14⟩, b15⟩, b16⟩, b17⟩, b18⟩, b19⟩, b20⟩ := h4
  constructor
  · simp only [stmt]
    rw [a1, a2, a3, a4, a5, a6, a7, a8, a9, a10, a11, a12, a13, a14, a15, a16,
      a17, a18, a19, a20, h2]
    simp only [Bool.or_self, Bool.false_eq_true, if_false, if_true]
    obtain ⟨pe, hpe⟩ : ∃ pe, expr p = (pe, none) :=
      ⟨(expr p).1, by rw [← h3]⟩
    rw [hpe]
  · simp only [stmt]
    rw [b1, b2, b3, b4, b5, b6, b7, b8, b9, b10, b11, b12, b13, b14, b15, b16,
      b17, b18, b19, b20, h5]
    simp only [Bool.or_self, Bool.false_eq_true, if_false]

/-- Witness for C10: instantiated at `(` (in the expression first set, the
modelled expression sub-parser yields no marker, `stmt` returns `none` with
no recovery) and at `:` (no dispatch case, recovery runs). -/
theorem C10_stmt_expr_none_spec_witness :
    stmt (0 + 1) input_lparen = some ((expr input_lparen).1, none)
    ∧ stmt (0 + 1) input_colon
        = some (input_colon.err_recover
            ((err_builder expected_stmt_msg).primary_span
              input_colon.cur_tok.range "Expected a statement here")
            STMT_RECOVERY_SET, none) :=
  C10_stmt_expr_none_spec 0 input_lparen input_colon rfl rfl rfl rfl rfl

end Rslint
